import Mathlib

/-!
# Verification of the twitch_to_discord subscription/watcher core

Shallow embedding of the repository's subscription registry
(`subscriptions.py`), the Discord command dispatch and markdown escaping
(`discord_client.py`), and the watcher loop's title polling/diff/notify
phase (`DiscordClient.watcher` together with
`DiscordClient.notify_subscribers`).

Modelling conventions:
* Python `dict` values are insertion-ordered association lists
  (`List (Nat × α)`); `dictGet`/`dictSet` mirror `d.get(k)` and
  `d[k] = v` (update-in-place keeps the original position, a fresh key
  is appended at the end, exactly as CPython dicts behave).
* Python `set` values are `Finset Nat`; the unspecified iteration order
  used when a set is converted to a list (`list(...)` in
  `Subscriber.to_dict`) or iterated is modelled by the canonical
  ascending enumeration `ascList`.
* File writes are modelled as data: a mutating registry operation
  returns, besides the new state and the boolean result, the serialized
  record list handed to `json.dump`, or `none` when the operation
  returned before reaching `dump_to_file`.
* Exceptions are modelled with `Except String`: the watcher's calls to
  `TwitchClient.get_stream_title` may raise (network/HTTP/IndexError),
  and the source contains no try/except around them.
-/

namespace TwitchToDiscord

/-- Python `d.get(k)`: first (and, for a real dict, only) binding of `k`. -/
def dictGet {α : Type} : List (Nat × α) → Nat → Option α
  | [], _ => none
  | (k', v) :: rest, k => if k' = k then some v else dictGet rest k

/-- Python `d[k] = v`: replace the binding in place if the key is
present, otherwise append the new binding at the end. -/
def dictSet {α : Type} : List (Nat × α) → Nat → α → List (Nat × α)
  | [], k, v => [(k, v)]
  | (k', v') :: rest, k, v =>
    if k' = k then (k, v) :: rest else (k', v') :: dictSet rest k v

/-- Canonical ascending enumeration of a finite set of naturals, used
wherever the Python code iterates or list-converts a `set` (whose
iteration order is implementation defined). Defined through
`List.insertionSort` so that it evaluates by kernel reduction on
concrete sets. -/
def ascList (s : Finset Nat) : List Nat :=
  Quotient.lift (List.insertionSort (· ≤ ·))
    (fun l₁ l₂ (h : l₁.Perm l₂) =>
      List.eq_of_perm_of_sorted
        ((List.perm_insertionSort _ l₁).trans (h.trans (List.perm_insertionSort _ l₂).symm))
        (List.sorted_insertionSort _ l₁) (List.sorted_insertionSort _ l₂))
    s.val

/-- Model of `Subscriber` from subscriptions.py: a discord user id together with
the set of followed streamer ids. -/
structure Subscriber where
  discord_id : Nat
  subscribed_streamers : Finset Nat
deriving DecidableEq

/-- One record of the persisted JSON format: the output of
`Subscriber.to_dict` and input of `Subscriber.from_dict`. -/
structure SubscriberDict where
  discord_id : Nat
  subscribed_streamers : List Nat
deriving DecidableEq

/-- Model of `Subscriber.to_dict`: `list(self.subscribed_streamers)` enumerates
the set; the unspecified CPython set order is modelled by `ascList`. -/
def Subscriber.to_dict (s : Subscriber) : SubscriberDict :=
  ⟨s.discord_id, ascList s.subscribed_streamers⟩

/-- Model of `Subscriber.from_dict`: `set(subscriber_info.get("subscribed_streamers"))`. -/
def Subscriber.from_dict (d : SubscriberDict) : Subscriber :=
  ⟨d.discord_id, d.subscribed_streamers.toFinset⟩

/-- Model of `Subscriber.add_subscription`: `self.subscribed_streamers.add(streamer_id)`. -/
def Subscriber.add_subscription (s : Subscriber) (streamer_id : Nat) : Subscriber :=
  ⟨s.discord_id, insert streamer_id s.subscribed_streamers⟩

/-- Model of `Subscriber.remove_subscription`: `set.remove` with `KeyError`
swallowed, i.e. idempotent erasure. -/
def Subscriber.remove_subscription (s : Subscriber) (streamer_id : Nat) : Subscriber :=
  ⟨s.discord_id, s.subscribed_streamers.erase streamer_id⟩

/-- The in-memory state of `SubscriptionManager`: the dict
`subscribers : discord_id → Subscriber`. The file path field carries no
state and is dropped; the file itself is modelled in `MutationResult`. -/
structure SubscriptionManager where
  subscribers : List (Nat × Subscriber)
deriving DecidableEq

/-- Model of `SubscriptionManager.dump_to_file`: serialize every subscriber, in
dict order, via `to_dict`; the resulting record list is what
`json.dump` writes. -/
def SubscriptionManager.dump_to_file (m : SubscriptionManager) : List SubscriberDict :=
  m.subscribers.map (fun kv => kv.2.to_dict)

/-- Model of `SubscriptionManager.load_from_file`: build the subscriber dict by
inserting `Subscriber.from_dict` of each record, keyed by its
`discord_id`, in file order. -/
def SubscriptionManager.load_from_file (data : List SubscriberDict) : SubscriptionManager :=
  ⟨data.foldl (fun subs d => dictSet subs d.discord_id (Subscriber.from_dict d)) []⟩

/-- Result of a mutating registry call: the state afterwards, the
returned boolean, and the record list written to the subscriptions file
(`none` when the call returned without writing). -/
structure MutationResult where
  state : SubscriptionManager
  returned : Bool
  written : Option (List SubscriberDict)
deriving DecidableEq

/-- Model of `SubscriptionManager.add_subscription(streamer_id, subscriber)`.
If the subscriber exists and already follows the streamer, return
`False` without writing. Otherwise create a fresh `Subscriber` seeded
with the single streamer id (the scalar constructor overload) or add to
the existing set, dump the whole map, and return `True`. -/
def SubscriptionManager.add_subscription (m : SubscriptionManager)
    (streamer_id subscriber_id : Nat) : MutationResult :=
  match dictGet m.subscribers subscriber_id with
  | some existing_subscriber =>
    if streamer_id ∈ existing_subscriber.subscribed_streamers then
      ⟨m, false, none⟩
    else
      let m' : SubscriptionManager :=
        ⟨dictSet m.subscribers subscriber_id
          (existing_subscriber.add_subscription streamer_id)⟩
      ⟨m', true, some m'.dump_to_file⟩
  | none =>
      let m' : SubscriptionManager :=
        ⟨dictSet m.subscribers subscriber_id ⟨subscriber_id, {streamer_id}⟩⟩
      ⟨m', true, some m'.dump_to_file⟩

/-- Model of `SubscriptionManager.remove_subscription(streamer_id, subscriber)`.
Return `False` without writing if the subscriber is unknown or does not
follow the streamer; otherwise erase the streamer from the set (the
subscriber entry itself is never deleted), dump, and return `True`. -/
def SubscriptionManager.remove_subscription (m : SubscriptionManager)
    (streamer_id subscriber_id : Nat) : MutationResult :=
  match dictGet m.subscribers subscriber_id with
  | none => ⟨m, false, none⟩
  | some existing_subscriber =>
    if streamer_id ∈ existing_subscriber.subscribed_streamers then
      let m' : SubscriptionManager :=
        ⟨dictSet m.subscribers subscriber_id
          (existing_subscriber.remove_subscription streamer_id)⟩
      ⟨m', true, some m'.dump_to_file⟩
    else
      ⟨m, false, none⟩

/-- The value returned by
`SubscriptionManager.get_subscriptions_by_discord_user`: the Python
function returns either the literal `False` or the subscriber's set, so
the model needs a sum of the two. -/
inductive GetSubscriptionsResult where
  | bool (b : Bool)
  | set (s : Finset Nat)
deriving DecidableEq

/-- Python truthiness of the returned value: `False` is falsy, a set is
falsy exactly when it is empty. -/
def GetSubscriptionsResult.falsy : GetSubscriptionsResult → Bool
  | .bool b => !b
  | .set s => s.card == 0

/-- Model of `SubscriptionManager.get_subscriptions_by_discord_user`: returns
`False` when the user has no entry, else the stored set. -/
def SubscriptionManager.get_subscriptions_by_discord_user
    (m : SubscriptionManager) (subscriber_id : Nat) : GetSubscriptionsResult :=
  match dictGet m.subscribers subscriber_id with
  | none => .bool false
  | some data => .set data.subscribed_streamers

/-- Model of `SubscriptionManager.get_subscriber_count`: `len(self.subscribers)`. -/
def SubscriptionManager.get_subscriber_count (m : SubscriptionManager) : Nat :=
  m.subscribers.length

/-- The followed set of a recipient, empty when the recipient is
unknown. -/
def followedSet (m : SubscriptionManager) (r : Nat) : Finset Nat :=
  match dictGet m.subscribers r with
  | none => ∅
  | some s => s.subscribed_streamers

/-- Recipient `r` follows channel `c` in registry `m`. -/
def Follows (m : SubscriptionManager) (r c : Nat) : Prop :=
  c ∈ followedSet m r

instance (m : SubscriptionManager) (r c : Nat) : Decidable (Follows m r c) :=
  inferInstanceAs (Decidable (c ∈ followedSet m r))

/-- Well-formedness of a registry state, maintained by every code path
that builds one: dict keys are unique (true of every Python dict), and
each `Subscriber` is stored under its own `discord_id`. -/
def SubscriptionManager.WF (m : SubscriptionManager) : Prop :=
  (m.subscribers.map Prod.fst).Nodup ∧ ∀ kv ∈ m.subscribers, kv.2.discord_id = kv.1

instance (m : SubscriptionManager) : Decidable m.WF :=
  inferInstanceAs (Decidable (_ ∧ _))

/-- The six markup-significant characters of
`DiscordClient.escape_markdown`'s character class (the fifth is the
backquote, U+0060). -/
def isMarkdownChar (c : Char) : Bool :=
  c = '_' || c = '~' || c = '*' || c = '>' || c = Char.ofNat 96 || c = '|'

/-- Character-level body of `re.sub` with the single-character class:
each occurrence of a markup character is replaced, left to right and
non-overlapping, by a backslash followed by the character itself. -/
def escapeChars : List Char → List Char
  | [] => []
  | c :: rest =>
    if isMarkdownChar c then '\\' :: c :: escapeChars rest
    else c :: escapeChars rest

/-- Model of `DiscordClient.escape_markdown`. -/
def DiscordClient.escape_markdown (text : String) : String :=
  ⟨escapeChars text.data⟩

/-- Character class `[a-z]` of `COMMAND_REGEX`. -/
def isLowerAlpha (c : Char) : Bool :=
  'a' ≤ c && c ≤ 'z'

/-- Model of `DiscordClient.COMMAND_REGEX.match(content)` together with the two
capture groups.

The pattern is `^!([a-z]+)(?: ([^ ]+))?.*$`. On newline-free input the
trailing `.*$` can never fail, so the backtracking engine never revisits
an earlier choice: the match succeeds exactly when the content starts
with `!` followed by at least one lowercase letter, group 1 is the
maximal lowercase run after the `!`, and group 2 is present exactly when
a space follows group 1 immediately and a non-space follows that space,
in which case it is the maximal non-space run there. -/
def commandRegexMatch (content : String) : Option (String × Option String) :=
  match content.data with
  | '!' :: rest =>
    let word := rest.takeWhile isLowerAlpha
    if word.isEmpty then none
    else
      let rest' := rest.dropWhile isLowerAlpha
      let arg : Option String :=
        match rest' with
        | ' ' :: rest2 =>
          let a := rest2.takeWhile (fun c => c != ' ')
          if a.isEmpty then none else some (String.mk a)
        | _ => none
      some (String.mk word, arg)
  | _ => none

/-- Where `DiscordClient.on_discord_message` routes a DM, as a function
of its text content: no regex match yields the help embed, and so does a
matching message whose command word is none of the three known ones;
`subscribe`/`unsubscribe` are dispatched with group 2 (the channel name,
possibly absent) as argument. -/
inductive CommandDispatch where
  | help
  | subscribe (channel_name : Option String)
  | unsubscribe (channel_name : Option String)
  | subscriptions
deriving DecidableEq

/-- The dispatch portion of `DiscordClient.on_discord_message`
(lines 74-95): match the regex, then branch on `match.group(1)`. -/
def on_discord_message_dispatch (content : String) : CommandDispatch :=
  match commandRegexMatch content with
  | none => .help
  | some (command, arg) =>
    if command = "subscribe" then .subscribe arg
    else if command = "unsubscribe" then .unsubscribe arg
    else if command = "subscriptions" then .subscriptions
    else .help

/-- The Twitch-facing calls the watcher's title phase makes, as an
abstract environment fixed for one cycle. `get_stream_title` may raise
(modelled with `Except String`): nothing in `DiscordClient.watcher`
catches such an exception. `is_live` and `get_display_name` are used
only for the suppression check and embed rendering here. -/
structure TwitchEnv where
  get_stream_title : Nat → Except String String
  is_live : Nat → Bool
  get_display_name : Nat → String

/-- The watcher's cycle-start aggregation (lines 194-198): the union of
every subscriber's followed set. -/
def subscribedStreamerIds (m : SubscriptionManager) : Finset Nat :=
  m.subscribers.foldl (fun acc kv => acc ∪ kv.2.subscribed_streamers) ∅

/-- The polling loop (lines 200-203): build `new_titles` by querying
each id in turn. The loop body has no exception handler, so the first
raising call aborts the whole loop (and with it the cycle), discarding
the partially built dict. -/
def pollTitles (env : TwitchEnv) : List Nat → Except String (List (Nat × String))
  | [] => .ok []
  | sid :: rest =>
    match env.get_stream_title sid with
    | .error e => .error e
    | .ok t =>
      match pollTitles env rest with
      | .error e => .error e
      | .ok d => .ok ((sid, t) :: d)

/-- One direct message sent by `DiscordClient.notify_subscribers`,
with the embed fields the source builds. `streamer_id` and `body` (the
`notification_description` argument) are carried explicitly so the
specification can talk about which notification a message belongs to;
in the source they determine `embed_title` and `description`. -/
structure Message where
  recipient : Nat
  streamer_id : Nat
  embed_title : String
  body : String
  description : String
  thumbnail_url : Option String
deriving DecidableEq

/-- Model of `DiscordClient.notify_subscribers`: iterate the subscriber dict in
order and send one embed to every subscriber whose followed set
contains the streamer; the embed description is the markdown-escaped
notification body. -/
def DiscordClient.notify_subscribers (m : SubscriptionManager) (env : TwitchEnv)
    (streamer_id : Nat) (notification_title_label notification_description : String)
    (notification_thumbnail_url : Option String) : List Message :=
  m.subscribers.filterMap (fun kv =>
    if streamer_id ∈ kv.2.subscribed_streamers then
      some ⟨kv.2.discord_id, streamer_id,
        notification_title_label ++ " for *"
          ++ DiscordClient.escape_markdown (env.get_display_name streamer_id) ++ "*",
        notification_description,
        DiscordClient.escape_markdown notification_description,
        notification_thumbnail_url⟩
    else none)

/-- Thumbnail URL hard-coded for title-update notifications. -/
def titleUpdateThumbnail : String :=
  "https://pbs.twimg.com/profile_images/1450901581876973568/0bHBmqXe_400x400.png"

/-- The three guards of the diff loop (lines 206-221), in source
order, as one predicate deciding whether the channel of `kv` notifies:
no previously remembered title -> skip; unchanged title -> skip;
currently live -> skip; otherwise notify. -/
def titleChangePred (env : TwitchEnv) (titles : List (Nat × String))
    (kv : Nat × String) : Bool :=
  match dictGet titles kv.1 with
  | none => false
  | some old => if kv.2 = old then false else !(env.is_live kv.1)

/-- Observable outcome of a successful title phase of one watcher
cycle: the dict the `titles` variable is replaced with at the end of
the cycle, the channels for which a "Title update" notification fired
(with the new title), and the direct messages those notifications
produced. -/
structure CycleResult where
  new_titles : List (Nat × String)
  notifications : List (Nat × String)
  messages : List Message
deriving DecidableEq

/-- The title phase of one iteration of `DiscordClient.watcher`
(lines 191-227 and the `titles = new_titles` assignment at 263), given
the registry, the Twitch environment, and the remembered `titles` dict.

The polling loop runs first over the sorted distinct followed ids; a
raising poll propagates (`Except.error`), in which case nothing else of
the cycle runs and the caller's `titles` binding is not reassigned.
Otherwise each polled channel is checked with the source's three guards
in order: no remembered title -> skip, unchanged title -> skip,
currently live -> skip; the remaining channels notify their
subscribers. -/
def DiscordClient.watcher_title_cycle (m : SubscriptionManager) (env : TwitchEnv)
    (titles : List (Nat × String)) : Except String CycleResult :=
  match pollTitles env (ascList (subscribedStreamerIds m)) with
  | .error e => .error e
  | .ok new_titles =>
    .ok ⟨new_titles,
      new_titles.filter (titleChangePred env titles),
      (new_titles.filter (titleChangePred env titles)).flatMap (fun kv =>
        DiscordClient.notify_subscribers m env kv.1 "Title update" kv.2
          (some titleUpdateThumbnail))⟩

/-- Python exceptions that can surface in the command path. -/
inductive PyExc where
  | typeError (message : String)
  | inputError (log_message user_message : String)
deriving DecidableEq

/-- Log level of the record a handler writes. -/
inductive LogLevel where
  | debug
  | info
  | warning
  | error
deriving DecidableEq

/-- What the requester observes from one dispatched command: the reply
text sent to them, the level the handler logged at, and whether the
exception was re-raised after replying. -/
structure CommandPathOutcome where
  user_reply : String
  log_level : LogLevel
  reraised : Bool
deriving DecidableEq

/-- The generic apology of the `except Exception` handler
(discord_client.py line 105) and the `InputError` default
`user_message` (line 16); the source misspells "occurred". -/
def genericErrorReply : String :=
  "Sorry, an error has occured. Please contact my programmer."

/-- Evaluating `InputError(log_message, user_message)`, modelled from
CPython semantics of the constructor as written (discord_client.py
lines 15-19): the two attribute assignments succeed, but the final
statement is `super.__init__(self.log_message)` - `super` without
parentheses, so this calls the unbound `__init__` slot wrapper of the
builtin `super` type with a `str` where a `super` instance is required,
which raises `TypeError`. Constructing an `InputError` therefore never
yields an `InputError` value; it raises `TypeError` instead. -/
def InputError.construct (log_message user_message : String) : PyExc :=
  PyExc.typeError
    "descriptor [init] of [super] requires a [super] object but received a [str]"

/-- The exception with which `subscribe_command` / `unsubscribe_command`
terminate, modelled from CPython semantics of lines 160-185:
`sub_unsub_wrapper` is an `async def` called without `await`, so the
call expression evaluates to a coroutine object without running the
wrapper body, and the tuple unpacking `success, streamer_info = ...`
immediately raises `TypeError` (a coroutine is not iterable) - for
every channel name, resolvable or not. (Had the call been awaited with
an unresolvable name, line 143's `raise InputError(...)` would evaluate
`InputError.construct` and so still raise `TypeError`, not
`InputError`.) -/
def subscribe_command_exception (channel_name_resolves : Bool) : PyExc :=
  PyExc.typeError "cannot unpack non-iterable coroutine object"

/-- The try/except dispatch of `DiscordClient.on_discord_message`
(lines 80-107) around a subscribe/unsubscribe command: an `InputError`
would be answered with its `user_message` and logged at warning; any
other exception is answered with the generic apology, logged at error,
and re-raised. -/
def command_path_outcome : PyExc → CommandPathOutcome
  | .inputError _ user_message => ⟨user_message, LogLevel.warning, false⟩
  | .typeError _ => ⟨genericErrorReply, LogLevel.error, true⟩

/-- Outcome of a `!subscribe <name>` DM as a function of whether the
name resolves: the raised `TypeError` reaches the generic handler. -/
def subscribe_command_outcome (channel_name_resolves : Bool) : CommandPathOutcome :=
  command_path_outcome (subscribe_command_exception channel_name_resolves)

/-- The user-facing message `sub_unsub_wrapper` line 146 passes to the
`InputError` constructor for an unknown channel name - the reply the
requester was meant to receive. -/
def unknownStreamerReply : String :=
  "Sorry, this streamer does not exist."

/-- Registry for the concrete per-channel-failure scenarios: one
subscriber following channels 1 and 2. -/
def watcherFailRegistry : SubscriptionManager := ⟨[(7, ⟨7, {1, 2}⟩)]⟩

/-- Environment in which polling channel 1 raises while channel 2
polls fine, has a changed title and is offline. -/
def watcherFailEnv : TwitchEnv :=
  ⟨fun sid => if sid = 1 then .error "boom" else .ok "B",
    fun _ => false, fun _ => "Streamer"⟩

/-- Environment for applying the amended C1: every poll raises. -/
def watcherAllFailEnv : TwitchEnv :=
  ⟨fun _ => .error "kaput", fun _ => false, fun _ => "Streamer"⟩

/-- Registry for the concrete successful-cycle scenario: recipient 7
follows channel 1, recipient 8 follows nothing. -/
def watcherOkRegistry : SubscriptionManager := ⟨[(7, ⟨7, {1}⟩), (8, ⟨8, ∅⟩)]⟩

/-- Environment in which every poll returns title "B" and no channel is
live. -/
def watcherOkEnv : TwitchEnv :=
  ⟨fun _ => .ok "B", fun _ => false, fun _ => "Streamer"⟩

/-- The cycle result of `watcherOkRegistry`/`watcherOkEnv` starting
from remembered title "A" for channel 1. -/
def c2WitnessResult : CycleResult :=
  ⟨[(1, "B")], [(1, "B")],
    [⟨7, 1, "Title update for *Streamer*", "B", "B", some titleUpdateThumbnail⟩]⟩

/-- The enumeration is, as a multiset, the set itself. -/
theorem coe_ascList (s : Finset Nat) : (↑(ascList s) : Multiset Nat) = s.val := by
  rcases s with ⟨val, nd⟩
  induction val using Quotient.inductionOn with
  | h l => exact Quotient.sound (List.perm_insertionSort _ l)

/-- Membership in the enumeration is membership in the set. -/
theorem mem_ascList {a : Nat} {s : Finset Nat} : a ∈ ascList s ↔ a ∈ s := by
  have h := coe_ascList s
  constructor
  · intro ha
    have : a ∈ (↑(ascList s) : Multiset Nat) := by exact_mod_cast ha
    rw [h] at this
    exact this
  · intro ha
    have : a ∈ (↑(ascList s) : Multiset Nat) := by rw [h]; exact ha
    exact_mod_cast this

/-- The enumeration of a set has no duplicates. -/
theorem nodup_ascList (s : Finset Nat) : (ascList s).Nodup := by
  have h := coe_ascList s
  have : Multiset.Nodup (↑(ascList s) : Multiset Nat) := by rw [h]; exact s.nodup
  exact_mod_cast this

/-- Rebuilding a finite set from its enumeration gives it back. -/
theorem toFinset_ascList (s : Finset Nat) : (ascList s).toFinset = s := by
  ext a
  rw [List.mem_toFinset, mem_ascList]

/-! ## Basic dictionary lemmas -/

theorem dictGet_dictSet_self {α : Type} (d : List (Nat × α)) (k : Nat) (v : α) :
    dictGet (dictSet d k v) k = some v := by
  induction d with
  | nil => simp [dictGet, dictSet]
  | cons kv rest ih =>
    by_cases h : kv.1 = k
    · simp [dictGet, dictSet, h]
    · simpa [dictGet, dictSet, h] using ih

theorem dictGet_dictSet_ne {α : Type} (d : List (Nat × α)) (k k' : Nat) (v : α)
    (h : k' ≠ k) : dictGet (dictSet d k v) k' = dictGet d k' := by
  induction d with
  | nil =>
    have h1 : ¬(k = k') := fun hh => h hh.symm
    simp [dictGet, dictSet, h1]
  | cons kv rest ih =>
    obtain ⟨k0, v0⟩ := kv
    by_cases hk : k0 = k
    · subst hk
      have h1 : ¬(k0 = k') := fun hh => h hh.symm
      simp [dictGet, dictSet, h1]
    · simp only [dictSet, if_neg hk]
      by_cases hk' : k0 = k'
      · simp [dictGet, hk']
      · simp [dictGet, hk', ih]

/-! ## Case-analysis lemmas for the registry mutations -/

theorem add_subscription_already {m : SubscriptionManager} {r c : Nat}
    {ex : Subscriber} (h : dictGet m.subscribers r = some ex)
    (hc : c ∈ ex.subscribed_streamers) :
    m.add_subscription c r = ⟨m, false, none⟩ := by
  unfold SubscriptionManager.add_subscription
  rw [h]
  simp [hc]

theorem add_subscription_extend {m : SubscriptionManager} {r c : Nat}
    {ex : Subscriber} (h : dictGet m.subscribers r = some ex)
    (hc : c ∉ ex.subscribed_streamers) :
    m.add_subscription c r =
      ⟨⟨dictSet m.subscribers r (ex.add_subscription c)⟩, true,
        some (SubscriptionManager.dump_to_file
          ⟨dictSet m.subscribers r (ex.add_subscription c)⟩)⟩ := by
  unfold SubscriptionManager.add_subscription
  rw [h]
  simp [hc]

theorem add_subscription_new {m : SubscriptionManager} {r c : Nat}
    (h : dictGet m.subscribers r = none) :
    m.add_subscription c r =
      ⟨⟨dictSet m.subscribers r ⟨r, {c}⟩⟩, true,
        some (SubscriptionManager.dump_to_file
          ⟨dictSet m.subscribers r ⟨r, {c}⟩⟩)⟩ := by
  unfold SubscriptionManager.add_subscription
  rw [h]

theorem remove_subscription_unknown {m : SubscriptionManager} {r c : Nat}
    (h : dictGet m.subscribers r = none) :
    m.remove_subscription c r = ⟨m, false, none⟩ := by
  unfold SubscriptionManager.remove_subscription
  rw [h]

theorem remove_subscription_absent {m : SubscriptionManager} {r c : Nat}
    {ex : Subscriber} (h : dictGet m.subscribers r = some ex)
    (hc : c ∉ ex.subscribed_streamers) :
    m.remove_subscription c r = ⟨m, false, none⟩ := by
  unfold SubscriptionManager.remove_subscription
  rw [h]
  simp [hc]

theorem remove_subscription_present {m : SubscriptionManager} {r c : Nat}
    {ex : Subscriber} (h : dictGet m.subscribers r = some ex)
    (hc : c ∈ ex.subscribed_streamers) :
    m.remove_subscription c r =
      ⟨⟨dictSet m.subscribers r (ex.remove_subscription c)⟩, true,
        some (SubscriptionManager.dump_to_file
          ⟨dictSet m.subscribers r (ex.remove_subscription c)⟩)⟩ := by
  unfold SubscriptionManager.remove_subscription
  rw [h]
  simp [hc]

/-! ## followedSet and Follows -/

theorem followedSet_of_get_none {m : SubscriptionManager} {r : Nat}
    (h : dictGet m.subscribers r = none) : followedSet m r = ∅ := by
  unfold followedSet
  rw [h]

theorem followedSet_of_get_some {m : SubscriptionManager} {r : Nat} {s : Subscriber}
    (h : dictGet m.subscribers r = some s) :
    followedSet m r = s.subscribed_streamers := by
  unfold followedSet
  rw [h]

theorem follows_iff {m : SubscriptionManager} {r c : Nat} :
    Follows m r c ↔ ∃ s, dictGet m.subscribers r = some s ∧ c ∈ s.subscribed_streamers := by
  unfold Follows followedSet
  cases h : dictGet m.subscribers r with
  | none => simp
  | some s => simp

/-- After `add_subscription c r` the recipient `r` follows `c`. -/
theorem follows_add_subscription (m : SubscriptionManager) (r c : Nat) :
    Follows (m.add_subscription c r).state r c := by
  cases h : dictGet m.subscribers r with
  | none =>
    rw [add_subscription_new h]
    exact follows_iff.mpr ⟨⟨r, {c}⟩, dictGet_dictSet_self .., by simp⟩
  | some ex =>
    by_cases hc : c ∈ ex.subscribed_streamers
    · rw [add_subscription_already h hc]
      exact follows_iff.mpr ⟨ex, h, hc⟩
    · rw [add_subscription_extend h hc]
      exact follows_iff.mpr
        ⟨ex.add_subscription c, dictGet_dictSet_self .., by simp [Subscriber.add_subscription]⟩

/-! ## C3, C7, C9: the registry mutation contracts -/

/-- C3: `add_subscription` returns `true` exactly when the call changed
state (the recipient was unknown, or known but not yet following the
channel) and `false` when the recipient already followed it; every
state-changing call writes the full serialized map to the file and a
no-op call does not write; after two consecutive subscribes of the same
pair the followed set contains exactly one entry for that channel. -/
theorem add_subscription_contract (m : SubscriptionManager) (r c : Nat) :
    ((m.add_subscription c r).returned = true ↔
      dictGet m.subscribers r = none ∨
        ∃ s, dictGet m.subscribers r = some s ∧ c ∉ s.subscribed_streamers)
    ∧ ((m.add_subscription c r).returned = false ↔ Follows m r c)
    ∧ ((m.add_subscription c r).returned = true →
        (m.add_subscription c r).written =
          some (m.add_subscription c r).state.dump_to_file)
    ∧ ((m.add_subscription c r).returned = false →
        (m.add_subscription c r).state = m ∧ (m.add_subscription c r).written = none)
    ∧ Multiset.count c
        (followedSet ((m.add_subscription c r).state.add_subscription c r).state r).val
      = 1 := by
  have h5 : Multiset.count c
      (followedSet ((m.add_subscription c r).state.add_subscription c r).state r).val
      = 1 := by
    obtain ⟨s, hs, hcs⟩ := follows_iff.mp (follows_add_subscription m r c)
    rw [add_subscription_already hs hcs, followedSet_of_get_some hs]
    exact Multiset.count_eq_one_of_mem s.subscribed_streamers.nodup hcs
  have h14 : ((m.add_subscription c r).returned = true ↔
      dictGet m.subscribers r = none ∨
        ∃ s, dictGet m.subscribers r = some s ∧ c ∉ s.subscribed_streamers)
      ∧ ((m.add_subscription c r).returned = false ↔ Follows m r c)
      ∧ ((m.add_subscription c r).returned = true →
          (m.add_subscription c r).written =
            some (m.add_subscription c r).state.dump_to_file)
      ∧ ((m.add_subscription c r).returned = false →
          (m.add_subscription c r).state = m ∧ (m.add_subscription c r).written = none) := by
    cases h : dictGet m.subscribers r with
    | none =>
      rw [add_subscription_new h]
      exact ⟨by simp [h], by simp [follows_iff, h], by simp, by simp⟩
    | some ex =>
      by_cases hc : c ∈ ex.subscribed_streamers
      · rw [add_subscription_already h hc]
        exact ⟨by simp [h, hc], by simp [follows_iff, h, hc], by simp, by simp⟩
      · rw [add_subscription_extend h hc]
        exact ⟨by simp [h, hc], by simp [follows_iff, h, hc], by simp, by simp⟩
  exact ⟨h14.1, h14.2.1, h14.2.2.1, h14.2.2.2, h5⟩

/-- Applies C3 at a concrete registry: subscribing a fresh recipient to
a fresh channel reports a state change. -/
theorem add_subscription_contract_witness :
    ((SubscriptionManager.mk []).add_subscription 5 1).returned = true :=
  (add_subscription_contract ⟨[]⟩ 1 5).1.mpr (Or.inl rfl)

/-- C7: `remove_subscription` returns `false` when the recipient is
unknown or did not follow the channel, in which case the state is
untouched (no subscriber entry is created) and nothing is written; it
returns `true` exactly when the channel was followed, in which case the
full map is written and the recipient's set loses exactly the channel. -/
theorem remove_subscription_contract (m : SubscriptionManager) (r c : Nat) :
    ((m.remove_subscription c r).returned = true ↔ Follows m r c)
    ∧ ((m.remove_subscription c r).returned = false →
        (m.remove_subscription c r).state = m ∧
          (m.remove_subscription c r).written = none)
    ∧ ((m.remove_subscription c r).returned = true →
        (m.remove_subscription c r).written =
          some (m.remove_subscription c r).state.dump_to_file
        ∧ followedSet (m.remove_subscription c r).state r = (followedSet m r).erase c
        ∧ ¬ Follows (m.remove_subscription c r).state r c) := by
  cases h : dictGet m.subscribers r with
  | none =>
    rw [remove_subscription_unknown h]
    exact ⟨by simp [follows_iff, h], by simp, by simp⟩
  | some ex =>
    by_cases hc : c ∈ ex.subscribed_streamers
    · rw [remove_subscription_present h hc]
      refine ⟨by simp [follows_iff, h, hc], by simp, fun _ => ⟨rfl, ?_, ?_⟩⟩
      · rw [followedSet_of_get_some (m := ⟨dictSet m.subscribers r (ex.remove_subscription c)⟩)
          (dictGet_dictSet_self ..), followedSet_of_get_some h]
        rfl
      · intro hf
        obtain ⟨s, hs, hcs⟩ := follows_iff.mp hf
        rw [dictGet_dictSet_self ..] at hs
        cases hs
        exact Finset.not_mem_erase c ex.subscribed_streamers hcs
    · rw [remove_subscription_absent h hc]
      exact ⟨by simp [follows_iff, h, hc], by simp, by simp⟩

/-- Applies C7 at a concrete registry: unsubscribing an unknown
recipient reports no change, creates no entry and writes nothing. -/
theorem remove_subscription_contract_witness :
    ((SubscriptionManager.mk []).remove_subscription 5 1).state = ⟨[]⟩ ∧
      ((SubscriptionManager.mk []).remove_subscription 5 1).written = none :=
  (remove_subscription_contract ⟨[]⟩ 1 5).2.1 (by decide)

/-- C9: `add_subscription` only ever adds: every follow-pair present
before is present afterwards, every other recipient's entry is
byte-for-byte unchanged, and the target recipient's followed set either
stays the same or gains exactly the subscribed channel. -/
theorem add_subscription_frame (m : SubscriptionManager) (r c : Nat) :
    (∀ r' c', Follows m r' c' → Follows (m.add_subscription c r).state r' c')
    ∧ (∀ r', r' ≠ r →
        dictGet (m.add_subscription c r).state.subscribers r' = dictGet m.subscribers r')
    ∧ (followedSet (m.add_subscription c r).state r = followedSet m r ∨
        followedSet (m.add_subscription c r).state r = insert c (followedSet m r)) := by
  cases h : dictGet m.subscribers r with
  | none =>
    rw [add_subscription_new h]
    refine ⟨?_, ?_, Or.inr ?_⟩
    · intro r' c' hf
      obtain ⟨s, hs, hcs⟩ := follows_iff.mp hf
      by_cases hr : r' = r
      · subst hr
        rw [h] at hs
        cases hs
      · exact follows_iff.mpr ⟨s, by rw [dictGet_dictSet_ne _ _ _ _ hr]; exact hs, hcs⟩
    · intro r' hr
      exact dictGet_dictSet_ne _ _ _ _ hr
    · rw [followedSet_of_get_some (dictGet_dictSet_self ..), followedSet_of_get_none h]
      rfl
  | some ex =>
    by_cases hc : c ∈ ex.subscribed_streamers
    · rw [add_subscription_already h hc]
      exact ⟨fun _ _ hf => hf, fun _ _ => rfl, Or.inl rfl⟩
    · rw [add_subscription_extend h hc]
      refine ⟨?_, ?_, Or.inr ?_⟩
      · intro r' c' hf
        obtain ⟨s, hs, hcs⟩ := follows_iff.mp hf
        by_cases hr : r' = r
        · subst hr
          rw [h] at hs
          cases hs
          exact follows_iff.mpr ⟨ex.add_subscription c, dictGet_dictSet_self ..,
            by simpa [Subscriber.add_subscription] using Or.inr hcs⟩
        · exact follows_iff.mpr ⟨s, by rw [dictGet_dictSet_ne _ _ _ _ hr]; exact hs, hcs⟩
      · intro r' hr
        exact dictGet_dictSet_ne _ _ _ _ hr
      · rw [followedSet_of_get_some (dictGet_dictSet_self ..), followedSet_of_get_some h]
        rfl

/-- Applies C9 at a concrete registry: subscribing recipient 1 leaves
recipient 7's entry untouched. -/
theorem add_subscription_frame_witness :
    dictGet ((SubscriptionManager.mk [(7, ⟨7, {2}⟩)]).add_subscription 5 1).state.subscribers 7
      = some ⟨7, {2}⟩ :=
  ((add_subscription_frame ⟨[(7, ⟨7, {2}⟩)]⟩ 1 5).2.1 7 (by decide)).trans (by decide)

/-! ## C6: the list operation -/

/-- C6 counterexample: on the empty registry the list operation applied
to the unknown recipient 1 returns the Python literal `False`, which is
not the empty set; the claim that the empty set is returned for an
unknown recipient is false of the code. -/
theorem get_subscriptions_unknown_counterexample :
    (SubscriptionManager.mk []).get_subscriptions_by_discord_user 1
        = GetSubscriptionsResult.bool false
    ∧ (SubscriptionManager.mk []).get_subscriptions_by_discord_user 1
        ≠ GetSubscriptionsResult.set ∅ := by
  decide

/-- C6 amended: the list operation returns `False` when the recipient
is unknown and the recipient's stored (possibly empty) set when known;
the result is falsy under Python truthiness exactly when the recipient
has no follows, so a caller testing truthiness cannot tell an unknown
recipient from a known one with an empty followed set. -/
theorem get_subscriptions_contract (m : SubscriptionManager) (r : Nat) :
    (dictGet m.subscribers r = none →
      m.get_subscriptions_by_discord_user r = GetSubscriptionsResult.bool false)
    ∧ (∀ s, dictGet m.subscribers r = some s →
        m.get_subscriptions_by_discord_user r
          = GetSubscriptionsResult.set s.subscribed_streamers)
    ∧ ((m.get_subscriptions_by_discord_user r).falsy = true ↔ followedSet m r = ∅) := by
  unfold SubscriptionManager.get_subscriptions_by_discord_user followedSet
  cases h : dictGet m.subscribers r with
  | none => simp [GetSubscriptionsResult.falsy]
  | some s =>
    refine ⟨by simp, by simp, ?_⟩
    simp [GetSubscriptionsResult.falsy, Finset.card_eq_zero, Nat.beq_eq_true_eq]

/-- Applies the amended C6 at a concrete registry: a known subscriber
with an emptied follow set also yields a falsy result. -/
theorem get_subscriptions_contract_witness :
    ((SubscriptionManager.mk [(7, ⟨7, ∅⟩)]).get_subscriptions_by_discord_user 7).falsy
      = true :=
  (get_subscriptions_contract ⟨[(7, ⟨7, ∅⟩)]⟩ 7).2.2.mpr (by decide)

/-! ## C8: markdown escaping -/

/-- C8: `escape_markdown` prefixes each occurrence of each character of
the escape set (underscore, tilde, asterisk, greater-than, backquote,
pipe) with a single backslash and leaves every other character
unchanged; in particular `_bold_` becomes `\_bold\_`. -/
theorem escape_markdown_spec :
    (∀ text : String, (DiscordClient.escape_markdown text).data
        = text.data.flatMap (fun c => if isMarkdownChar c then ['\\', c] else [c]))
    ∧ (∀ text : String, (∀ c ∈ text.data, isMarkdownChar c = false) →
        DiscordClient.escape_markdown text = text)
    ∧ DiscordClient.escape_markdown "_bold_" = "\\_bold\\_" := by
  have key : ∀ l : List Char,
      escapeChars l = l.flatMap (fun c => if isMarkdownChar c then ['\\', c] else [c]) := by
    intro l
    induction l with
    | nil => rfl
    | cons c rest ih =>
      by_cases h : isMarkdownChar c <;> simp [escapeChars, h, ih]
  refine ⟨fun text => key text.data, ?_, by decide⟩
  intro text hplain
  have : escapeChars text.data = text.data := by
    rw [key]
    calc text.data.flatMap (fun c => if isMarkdownChar c then ['\\', c] else [c])
        = text.data.flatMap (fun c => [c]) := by
          refine List.flatMap_congr ?_
          intro x hx
          simp [hplain x hx]
        _ = text.data := by simp
  cases text with
  | mk data => simpa [DiscordClient.escape_markdown] using congrArg String.mk this

/-- Applies C8 to a markup-free string: escaping leaves it unchanged. -/
theorem escape_markdown_spec_witness :
    DiscordClient.escape_markdown "hello" = "hello" :=
  escape_markdown_spec.2.1 "hello" (by decide)

/-! ## C10: the bare command pattern -/

/-- C10: `!subscribe` with no argument matches `COMMAND_REGEX` with
command word `subscribe` and an absent second group, and is dispatched
to the subscribe path with no channel name rather than answered with
the help response; likewise for `!unsubscribe`. -/
theorem bare_command_dispatch :
    commandRegexMatch "!subscribe" = some ("subscribe", none)
    ∧ on_discord_message_dispatch "!subscribe" = CommandDispatch.subscribe none
    ∧ commandRegexMatch "!unsubscribe" = some ("unsubscribe", none)
    ∧ on_discord_message_dispatch "!unsubscribe" = CommandDispatch.unsubscribe none := by
  exact ⟨by decide, by decide, by decide, by decide⟩

/-! ## C4: the unknown-channel-name path -/

/-- C4 (code bug): for a subscribe request whose channel-name
resolution fails, the requester receives the generic apology and the
handler logs at error level and re-raises, instead of the `InputError`
user-safe message logged at warning: the command path raises
`TypeError` (tuple-unpacking the un-awaited coroutine), and even the
`InputError` constructor itself can only raise `TypeError`, never
produce an `InputError`. -/
theorem unknown_name_generic_error :
    subscribe_command_outcome false
        = ⟨genericErrorReply, LogLevel.error, true⟩
    ∧ (subscribe_command_outcome false).user_reply ≠ unknownStreamerReply
    ∧ (subscribe_command_outcome false).log_level ≠ LogLevel.warning
    ∧ ∀ lm um l u : String, InputError.construct lm um ≠ PyExc.inputError l u := by
  refine ⟨rfl, by decide, by decide, ?_⟩
  intro lm um l u
  simp [InputError.construct]

/-! ## C5: serialization round trip -/

theorem dictSet_append {α : Type} (d : List (Nat × α)) (k : Nat) (v : α)
    (h : k ∉ d.map Prod.fst) : dictSet d k v = d ++ [(k, v)] := by
  induction d with
  | nil => rfl
  | cons kv rest ih =>
    have h1 : ¬kv.1 = k := fun hh => h (by simp [hh])
    have h2 : k ∉ rest.map Prod.fst := fun hh => h (by simp [hh])
    simp [dictSet, h1, ih h2]

/-- Folding dict insertions of records with fresh, pairwise distinct
keys just appends the corresponding bindings in order. -/
theorem load_foldl (data : List SubscriberDict) (acc : List (Nat × Subscriber))
    (hnd : (data.map SubscriberDict.discord_id).Nodup)
    (hdisj : ∀ d ∈ data, d.discord_id ∉ acc.map Prod.fst) :
    data.foldl (fun subs d => dictSet subs d.discord_id (Subscriber.from_dict d)) acc
      = acc ++ data.map (fun d => (d.discord_id, Subscriber.from_dict d)) := by
  induction data generalizing acc with
  | nil => simp
  | cons d rest ih =>
    have hstep : dictSet acc d.discord_id (Subscriber.from_dict d)
        = acc ++ [(d.discord_id, Subscriber.from_dict d)] :=
      dictSet_append _ _ _ (hdisj d (by simp))
    rw [List.foldl_cons, hstep,
      ih (acc ++ [(d.discord_id, Subscriber.from_dict d)])
        (by simpa using hnd.of_cons)
        ?_]
    · simp
    · intro e he
      have hne : e.discord_id ≠ d.discord_id := by
        intro hh
        exact (List.nodup_cons.mp (by simpa using hnd)).1
          (hh ▸ List.mem_map_of_mem SubscriberDict.discord_id he)
      have hacc : e.discord_id ∉ acc.map Prod.fst := hdisj e (by simp [he])
      simp [hne, hacc]

/-- Deserializing a serialized subscriber gives the subscriber back. -/
theorem from_dict_to_dict (s : Subscriber) : Subscriber.from_dict s.to_dict = s := by
  cases s with
  | mk i set => simp [Subscriber.from_dict, Subscriber.to_dict, toFinset_ascList]

/-- On well-formed registries, reloading the dumped record list rebuilds
the subscriber dict verbatim. -/
theorem load_dump (m : SubscriptionManager) (hwf : m.WF) :
    SubscriptionManager.load_from_file m.dump_to_file = m := by
  cases m with
  | mk subs =>
    unfold SubscriptionManager.load_from_file SubscriptionManager.dump_to_file
    have hkeys : ((subs.map (fun kv => kv.2.to_dict)).map SubscriberDict.discord_id)
        = subs.map Prod.fst := by
      rw [List.map_map]
      exact List.map_congr_left (fun kv hkv => by
        simpa [Subscriber.to_dict] using hwf.2 kv hkv)
    rw [load_foldl _ [] (by rw [hkeys]; exact hwf.1) (by simp)]
    have hlist : ((subs.map (fun kv => kv.2.to_dict)).map
        (fun d => (d.discord_id, Subscriber.from_dict d))) = subs := by
      rw [List.map_map]
      have hpt : ∀ kv ∈ subs,
          ((fun d => (d.discord_id, Subscriber.from_dict d)) ∘ fun kv => kv.2.to_dict) kv
            = kv := by
        intro kv hkv
        simp only [Function.comp_apply, from_dict_to_dict]
        have : kv.2.to_dict.discord_id = kv.1 := by
          simpa [Subscriber.to_dict] using hwf.2 kv hkv
        rw [this]
      calc (subs.map ((fun d => (d.discord_id, Subscriber.from_dict d))
              ∘ fun kv => kv.2.to_dict))
          = subs.map id := List.map_congr_left hpt
        _ = subs := List.map_id subs
    simpa using congrArg SubscriptionManager.mk hlist

/-- C5: serializing any well-formed registry and loading the result
back yields a map equal as a relation to the original: the same
recipients are present, and each recipient's followed channel set is
unchanged. -/
theorem dump_load_round_trip (m : SubscriptionManager) (hwf : m.WF) :
    (∀ r, (dictGet (SubscriptionManager.load_from_file m.dump_to_file).subscribers r).isSome
        = (dictGet m.subscribers r).isSome)
    ∧ (∀ r, followedSet (SubscriptionManager.load_from_file m.dump_to_file) r
        = followedSet m r) := by
  rw [load_dump m hwf]
  exact ⟨fun _ => rfl, fun _ => rfl⟩

/-- Applies C5 at a concrete registry of one subscriber with two
follow-edges. -/
theorem dump_load_round_trip_witness :
    followedSet
        (SubscriptionManager.load_from_file
          (SubscriptionManager.mk [(7, ⟨7, {1, 2}⟩)]).dump_to_file) 7
      = followedSet ⟨[(7, ⟨7, {1, 2}⟩)]⟩ 7 :=
  (dump_load_round_trip ⟨[(7, ⟨7, {1, 2}⟩)]⟩ (by decide)).2 7

/-! ## C1: behaviour of the cycle under a poll failure -/

/-- A successful polling loop returns one entry per queried id, in
order. -/
theorem pollTitles_ok_keys {env : TwitchEnv} {ids : List Nat}
    {d : List (Nat × String)} (h : pollTitles env ids = .ok d) :
    d.map Prod.fst = ids := by
  induction ids generalizing d with
  | nil =>
    cases h
    rfl
  | cons sid rest ih =>
    unfold pollTitles at h
    cases ht : env.get_stream_title sid with
    | error e => rw [ht] at h; cases h
    | ok t =>
      rw [ht] at h
      cases hr : pollTitles env rest with
      | error e => rw [hr] at h; cases h
      | ok d' =>
        rw [hr] at h
        cases h
        simpa using ih hr

/-- The polling loop raises exactly when one of the queried channels'
poll raises. -/
theorem pollTitles_error_iff (env : TwitchEnv) (ids : List Nat) :
    (∃ e, pollTitles env ids = .error e) ↔
      ∃ sid ∈ ids, ∃ e, env.get_stream_title sid = .error e := by
  induction ids with
  | nil => simp [pollTitles]
  | cons sid rest ih =>
    unfold pollTitles
    cases ht : env.get_stream_title sid with
    | error e =>
      simp only [List.mem_cons]
      constructor
      · intro _
        exact ⟨sid, Or.inl rfl, e, ht⟩
      · intro _
        exact ⟨e, rfl⟩
    | ok t =>
      cases hr : pollTitles env rest with
      | error e =>
        simp only [List.mem_cons]
        constructor
        · intro _
          obtain ⟨sid', hmem, he⟩ := ih.mp ⟨e, hr⟩
          exact ⟨sid', Or.inr hmem, he⟩
        · intro _
          exact ⟨e, rfl⟩
      | ok d' =>
        simp only [List.mem_cons]
        constructor
        · rintro ⟨e, he⟩
          cases he
        · rintro ⟨sid', hmem, e, he⟩
          rcases hmem with rfl | hmem
          · rw [ht] at he
            cases he
          · obtain ⟨e', he'⟩ := ih.mpr ⟨sid', hmem, e, he⟩
            rw [he'] at hr
            cases hr

/-- C1 amended: a failure while polling any followed channel's title
aborts the entire title cycle: the exception propagates out unchanged
(so no channel's diff/notify logic runs and the remembered `titles`
binding is not reassigned), and the cycle raises exactly when some
followed channel's poll raises. -/
theorem title_poll_failure_aborts_cycle (m : SubscriptionManager) (env : TwitchEnv)
    (titles : List (Nat × String)) :
    (∀ e, pollTitles env (ascList (subscribedStreamerIds m)) = .error e →
      DiscordClient.watcher_title_cycle m env titles = .error e)
    ∧ ((∃ e, DiscordClient.watcher_title_cycle m env titles = .error e) ↔
        ∃ sid ∈ subscribedStreamerIds m, ∃ e, env.get_stream_title sid = .error e) := by
  constructor
  · intro e he
    unfold DiscordClient.watcher_title_cycle
    rw [he]
  · have hmem : ∀ sid : Nat,
        sid ∈ ascList (subscribedStreamerIds m) ↔ sid ∈ subscribedStreamerIds m :=
      fun _ => mem_ascList
    rw [show (∃ sid ∈ subscribedStreamerIds m, ∃ e, env.get_stream_title sid = .error e)
        = ∃ sid ∈ ascList (subscribedStreamerIds m), ∃ e,
            env.get_stream_title sid = .error e from by simp only [hmem],
      ← pollTitles_error_iff]
    unfold DiscordClient.watcher_title_cycle
    cases hp : pollTitles env (ascList (subscribedStreamerIds m)) with
    | error e => simp
    | ok nts => simp

/-- C1 counterexample: channel 2's poll succeeds, a remembered title
exists for it, it differs from the new one and the channel is offline
- so under the claim channel 2's diff/notify logic would run - yet the
cycle evaluates to the exception propagated from channel 1's poll, so
no channel's diff/notify logic executes at all. -/
theorem per_channel_isolation_counterexample :
    watcherFailEnv.get_stream_title 2 = Except.ok "B"
    ∧ dictGet [(2, "A")] 2 = some "A"
    ∧ watcherFailEnv.is_live 2 = false
    ∧ DiscordClient.watcher_title_cycle watcherFailRegistry watcherFailEnv [(2, "A")]
        = Except.error "boom" :=
  ⟨rfl, rfl, rfl, rfl⟩

/-- Applies the amended C1 at a concrete scenario. -/
theorem title_poll_failure_aborts_cycle_witness :
    DiscordClient.watcher_title_cycle watcherFailRegistry watcherAllFailEnv [(2, "A")]
      = Except.error "kaput" :=
  (title_poll_failure_aborts_cycle watcherFailRegistry watcherAllFailEnv [(2, "A")]).1
    "kaput" (by rfl)

/-! ## C2: the notification condition and fan-out -/

theorem dictGet_eq_none_of_not_mem {α : Type} (d : List (Nat × α)) (k : Nat)
    (h : k ∉ d.map Prod.fst) : dictGet d k = none := by
  induction d with
  | nil => rfl
  | cons kv rest ih =>
    have h1 : ¬kv.1 = k := fun hh => h (by simp [hh])
    have h2 : k ∉ rest.map Prod.fst := fun hh => h (by simp [hh])
    simp [dictGet, h1, ih h2]

/-- The three diff-loop guards hold together exactly when a remembered
title exists, the new title differs from it, and the channel is not
live. -/
theorem titleChangePred_iff (env : TwitchEnv) (titles : List (Nat × String))
    (kv : Nat × String) :
    titleChangePred env titles kv = true ↔
      ∃ old, dictGet titles kv.1 = some old ∧ kv.2 ≠ old ∧ env.is_live kv.1 = false := by
  cases h : dictGet titles kv.1 with
  | none =>
    have hred : titleChangePred env titles kv = false := by
      unfold titleChangePred
      rw [h]
    rw [hred]
    simp
  | some old =>
    have hred : titleChangePred env titles kv
        = if kv.2 = old then false else !env.is_live kv.1 := by
      unfold titleChangePred
      rw [h]
    rw [hred]
    by_cases he : kv.2 = old
    · simp [he]
    · rw [if_neg he]
      constructor
      · intro hb
        refine ⟨old, rfl, he, ?_⟩
        cases hl : env.is_live kv.1
        · rfl
        · rw [hl] at hb
          simp at hb
      · rintro ⟨old', hold, hne, hlive⟩
        injection hold with hh
        subst hh
        simp [hlive]

theorem filter_flatMap {α β : Type} (l : List α) (f : α → List β) (p : β → Bool) :
    (l.flatMap f).filter p = l.flatMap (fun a => (f a).filter p) := by
  induction l with
  | nil => rfl
  | cons a rest ih => simp [List.flatMap_cons, List.filter_append, ih]

theorem flatMap_eq_nil_of_forall {α β : Type} (l : List α) (g : α → List β)
    (h : ∀ a ∈ l, g a = []) : l.flatMap g = [] := by
  induction l with
  | nil => rfl
  | cons a rest ih =>
    rw [List.flatMap_cons, h a (by simp), List.nil_append]
    exact ih (fun a ha => h a (by simp [ha]))

/-- A `flatMap` over a list of key-value pairs with pairwise distinct
keys, whose function returns `[]` away from one key, collapses to the
contribution of that key's unique pair. -/
theorem flatMap_eq_of_unique_key {β : Type} (l : List (Nat × String))
    (g : Nat × String → List β) (hnd : (l.map Prod.fst).Nodup)
    {sid : Nat} {nt : String} (hmem : (sid, nt) ∈ l)
    (hz : ∀ kv ∈ l, kv.1 ≠ sid → g kv = []) :
    l.flatMap g = g (sid, nt) := by
  induction l with
  | nil => cases hmem
  | cons kv rest ih =>
    rw [List.map_cons] at hnd
    have hnotin := (List.nodup_cons.mp hnd).1
    have hndr := (List.nodup_cons.mp hnd).2
    rcases List.mem_cons.mp hmem with heq | hmem'
    · cases heq
      rw [List.flatMap_cons]
      have hrest : rest.flatMap g = [] := by
        refine flatMap_eq_nil_of_forall rest g (fun e he => hz e (by simp [he]) ?_)
        intro hh
        apply hnotin
        have hx : e.1 ∈ rest.map Prod.fst := List.mem_map_of_mem Prod.fst he
        rw [hh] at hx
        exact hx
      rw [hrest, List.append_nil]
    · have hkv : g kv = [] := by
        refine hz kv (by simp) ?_
        intro hh
        apply hnotin
        rw [hh]
        exact (List.mem_map_of_mem Prod.fst hmem' : (sid, nt).1 ∈ rest.map Prod.fst)
      rw [List.flatMap_cons, hkv, List.nil_append]
      exact ih hndr hmem' (fun e he hne => hz e (by simp [he]) hne)

/-- Filtering by recipient the messages built from a dict with
pairwise-distinct keys, each subscriber stored under its own id, keeps
exactly the target recipient's message when its stored entry satisfies
the sending condition. -/
theorem filterMap_filter_recipient (r : Nat) (mkMsg : Nat → Message)
    (hrec : ∀ k, (mkMsg k).recipient = k)
    (cond : Subscriber → Prop) [DecidablePred cond] :
    ∀ l : List (Nat × Subscriber),
      (l.map Prod.fst).Nodup → (∀ kv ∈ l, kv.2.discord_id = kv.1) →
      ((l.filterMap (fun kv =>
          if cond kv.2 then some (mkMsg kv.2.discord_id) else none)).filter
            (fun msg => msg.recipient == r))
        = match dictGet l r with
          | some s => if cond s then [mkMsg r] else []
          | none => [] := by
  intro l
  induction l with
  | nil =>
    intro _ _
    rfl
  | cons kv rest ih =>
    intro hnd hid
    obtain ⟨k0, sub⟩ := kv
    rw [List.map_cons] at hnd
    have hnotin := (List.nodup_cons.mp hnd).1
    have hndr := (List.nodup_cons.mp hnd).2
    have hid0 : sub.discord_id = k0 := hid (k0, sub) (by simp)
    have hidr : ∀ e ∈ rest, e.2.discord_id = e.1 := fun e he => hid e (by simp [he])
    rw [List.filterMap_cons]
    by_cases hc : cond sub
    · rw [if_pos hc, List.filter_cons, hrec, hid0]
      by_cases hk : k0 = r
      · subst hk
        rw [if_pos (by simp), ih hndr hidr,
          dictGet_eq_none_of_not_mem rest k0 hnotin]
        simp [dictGet, hc]
      · rw [if_neg (by simpa using hk), ih hndr hidr]
        simp [dictGet, hk]
    · rw [if_neg hc, ih hndr hidr]
      by_cases hk : k0 = r
      · subst hk
        rw [dictGet_eq_none_of_not_mem rest k0 hnotin]
        simp [dictGet, hc]
      · simp [dictGet, hk]

/-- Every message produced by `notify_subscribers` carries the streamer
id it was called for. -/
theorem notify_subscribers_streamer {m : SubscriptionManager} {env : TwitchEnv}
    {sid : Nat} {lbl desc : String} {thumb : Option String} :
    ∀ msg ∈ DiscordClient.notify_subscribers m env sid lbl desc thumb,
      msg.streamer_id = sid := by
  intro msg hmsg
  unfold DiscordClient.notify_subscribers at hmsg
  obtain ⟨kv, hkv, hfn⟩ := List.mem_filterMap.mp hmsg
  by_cases hin : sid ∈ kv.2.subscribed_streamers
  · rw [if_pos hin] at hfn
    cases hfn
    rfl
  · rw [if_neg hin] at hfn
    cases hfn

/-- Fan-out of one `notify_subscribers` call on a well-formed registry:
filtering the sent messages by a recipient yields exactly one message
when that recipient follows the streamer and none otherwise. -/
theorem notify_subscribers_filter (m : SubscriptionManager) (env : TwitchEnv)
    (hwf : m.WF) (sid : Nat) (lbl desc : String) (thumb : Option String) (r : Nat) :
    (DiscordClient.notify_subscribers m env sid lbl desc thumb).filter
        (fun msg => msg.recipient == r)
      = if Follows m r sid then
          [⟨r, sid,
            lbl ++ " for *"
              ++ DiscordClient.escape_markdown (env.get_display_name sid) ++ "*",
            desc, DiscordClient.escape_markdown desc, thumb⟩]
        else [] := by
  unfold DiscordClient.notify_subscribers
  rw [filterMap_filter_recipient r
    (fun k => ⟨k, sid,
      lbl ++ " for *"
        ++ DiscordClient.escape_markdown (env.get_display_name sid) ++ "*",
      desc, DiscordClient.escape_markdown desc, thumb⟩)
    (fun _ => rfl)
    (fun s => sid ∈ s.subscribed_streamers)
    m.subscribers hwf.1 hwf.2]
  cases h : dictGet m.subscribers r with
  | none =>
    have hnf : ¬ Follows m r sid := by
      intro hf
      obtain ⟨s, hs, _⟩ := follows_iff.mp hf
      rw [h] at hs
      cases hs
    simp [hnf]
  | some s =>
    by_cases hin : sid ∈ s.subscribed_streamers
    · have hf : Follows m r sid := follows_iff.mpr ⟨s, h, hin⟩
      simp [hf, hin]
    · have hnf : ¬ Follows m r sid := by
        intro hf
        obtain ⟨s', hs', hin'⟩ := follows_iff.mp hf
        rw [h] at hs'
        injection hs' with hh
        subst hh
        exact hin hin'
      simp [hnf, hin]

/-- C2: in a successful watcher cycle over a well-formed registry, a
"Title update" notification fires for a channel exactly when that
channel was polled, a previously remembered title exists, the new title
differs from it, and the live poll reports not live; on a channel's
first-ever poll nothing fires; and each notification delivers exactly
one message - whose body is the new title and whose rendered embed
description is its markdown-escaped form - to every subscriber
following the channel and to nobody else. -/
theorem title_update_notification (m : SubscriptionManager) (env : TwitchEnv)
    (titles : List (Nat × String)) (res : CycleResult)
    (hwf : m.WF)
    (hres : DiscordClient.watcher_title_cycle m env titles = Except.ok res) :
    (∀ sid nt, (sid, nt) ∈ res.notifications ↔
        ((sid, nt) ∈ res.new_titles
          ∧ ∃ old, dictGet titles sid = some old ∧ nt ≠ old ∧ env.is_live sid = false))
    ∧ (∀ sid nt, dictGet titles sid = none → (sid, nt) ∉ res.notifications)
    ∧ (∀ sid nt, (sid, nt) ∈ res.notifications → ∀ r,
        res.messages.filter (fun msg => msg.streamer_id == sid && msg.recipient == r)
          = if Follows m r sid then
              [⟨r, sid,
                "Title update" ++ " for *"
                  ++ DiscordClient.escape_markdown (env.get_display_name sid) ++ "*",
                nt, DiscordClient.escape_markdown nt, some titleUpdateThumbnail⟩]
            else []) := by
  unfold DiscordClient.watcher_title_cycle at hres
  cases hp : pollTitles env (ascList (subscribedStreamerIds m)) with
  | error e =>
    rw [hp] at hres
    cases hres
  | ok nts =>
    rw [hp] at hres
    injection hres with hres
    subst hres
    have hndkeys : (nts.map Prod.fst).Nodup := by
      rw [pollTitles_ok_keys hp]
      exact nodup_ascList _
    have h1 : ∀ sid nt, ((sid, nt) ∈ nts.filter (titleChangePred env titles) ↔
        ((sid, nt) ∈ nts
          ∧ ∃ old, dictGet titles sid = some old ∧ nt ≠ old
            ∧ env.is_live sid = false)) := by
      intro sid nt
      rw [List.mem_filter]
      exact and_congr_right fun _ => titleChangePred_iff env titles (sid, nt)
    refine ⟨h1, ?_, ?_⟩
    · intro sid nt hnone hmem
      obtain ⟨-, old, hold, -, -⟩ := (h1 sid nt).mp hmem
      rw [hnone] at hold
      cases hold
    · intro sid nt hmem r
      have hndn : ((nts.filter (titleChangePred env titles)).map Prod.fst).Nodup :=
        hndkeys.sublist ((List.filter_sublist nts).map Prod.fst)
      have hz : ∀ kv ∈ nts.filter (titleChangePred env titles), kv.1 ≠ sid →
          (DiscordClient.notify_subscribers m env kv.1 "Title update" kv.2
              (some titleUpdateThumbnail)).filter
            (fun msg => msg.streamer_id == sid && msg.recipient == r) = [] := by
        intro kv hkv hne
        refine List.filter_eq_nil_iff.mpr ?_
        intro msg hmsg
        have hst := notify_subscribers_streamer msg hmsg
        simp [hst, hne]
      have hcongr : ∀ msg ∈ DiscordClient.notify_subscribers m env sid "Title update" nt
          (some titleUpdateThumbnail),
          (msg.streamer_id == sid && msg.recipient == r) = (msg.recipient == r) := by
        intro msg hmsg
        have hst := notify_subscribers_streamer msg hmsg
        simp [hst]
      have e1 := filter_flatMap (nts.filter (titleChangePred env titles))
        (fun kv => DiscordClient.notify_subscribers m env kv.1 "Title update" kv.2
          (some titleUpdateThumbnail))
        (fun msg => msg.streamer_id == sid && msg.recipient == r)
      have e2 : (nts.filter (titleChangePred env titles)).flatMap
          (fun kv => (DiscordClient.notify_subscribers m env kv.1 "Title update" kv.2
            (some titleUpdateThumbnail)).filter
              (fun msg => msg.streamer_id == sid && msg.recipient == r))
          = (DiscordClient.notify_subscribers m env sid "Title update" nt
              (some titleUpdateThumbnail)).filter
            (fun msg => msg.streamer_id == sid && msg.recipient == r) :=
        flatMap_eq_of_unique_key _ _ hndn hmem hz
      have e3 : (DiscordClient.notify_subscribers m env sid "Title update" nt
            (some titleUpdateThumbnail)).filter
          (fun msg => msg.streamer_id == sid && msg.recipient == r)
          = (DiscordClient.notify_subscribers m env sid "Title update" nt
              (some titleUpdateThumbnail)).filter (fun msg => msg.recipient == r) :=
        List.filter_congr hcongr
      have e4 := notify_subscribers_filter m env hwf sid "Title update" nt
        (some titleUpdateThumbnail) r
      exact e1.trans (e2.trans (e3.trans e4))

/-- Applies C2 at the concrete scenario: the one notification for
channel 1 delivers exactly one message to its one follower. -/
theorem title_update_notification_witness :
    c2WitnessResult.messages.filter (fun msg => msg.streamer_id == 1 && msg.recipient == 7)
      = [⟨7, 1,
          "Title update" ++ " for *"
            ++ DiscordClient.escape_markdown (watcherOkEnv.get_display_name 1) ++ "*",
          "B", DiscordClient.escape_markdown "B", some titleUpdateThumbnail⟩] :=
  ((title_update_notification watcherOkRegistry watcherOkEnv [(1, "A")] c2WitnessResult
      (by decide) (by rfl)).2.2 1 "B" (by decide) 7).trans (if_pos (by decide))

end TwitchToDiscord
